import Mathlib

/-
Verification of the process execution subsystem (Go package process):
a shallow embedding of Execute, ExecuteInDir, LoggedExecuteInDir,
ExecuteAsync, ExecuteAsyncInDir and ExecuteString, with the operating
system abstracted as an oracle from a configured command to an outcome.
-/

namespace Process

/-- Destination wiring for the combined stdout and stderr of a launched
process. The source always assigns Stdout and Stderr the same value, so a
single field models both: discard corresponds to leaving the fields nil,
buffer to the in-memory bytes.Buffer, multi to the io.MultiWriter over the
buffer and the caller supplied writer. -/
inductive OutDest where
  | discard : OutDest
  | buffer : OutDest
  | multi : OutDest
deriving DecidableEq

/-- Shallow embedding of the exec.Cmd configuration as the package builds
it: program, arguments, optional working directory, optional environment
(none means the child inherits the parent environment, as exec.Cmd
documents for a nil Env), and output destination. -/
structure Cmd where
  program : String
  args : List String
  dir : Option String
  env : Option (List String)
  dest : OutDest
deriving DecidableEq

/-- Model of exec.Command: Dir empty, Env nil, Stdout and Stderr nil. -/
def execCommand (program : String) (args : List String) : Cmd :=
  ⟨program, args, none, none, OutDest.discard⟩

/-- Model of the guard shared by all entry points: if dir is nonempty then
cmd.Dir is set to dir, otherwise the field is left untouched. -/
def withDir (c : Cmd) (dir : String) : Cmd :=
  if dir = "" then c else { c with dir := some dir }

/-- Effective environment the operating system hands to the child: the
configured Env when set, else the inherited parent environment. -/
def effectiveEnv (osEnv : List String) (c : Cmd) : List String :=
  (c.env).getD osEnv

/-- The command ExecuteInDir configures before starting: working directory
guard, then cmd.Env set to the inherited environment, then GoEnviron
appended to cmd.Env, then stdout and stderr wired to the buffer. -/
def executeInDirCmd (dir program : String) (args osEnv goEnviron : List String) : Cmd :=
  let c := withDir (execCommand program args) dir
  let c := { c with env := some osEnv }
  let c := { c with env := some ((c.env).getD [] ++ goEnviron) }
  { c with dest := OutDest.buffer }

/-- The command LoggedExecuteInDir configures before starting: working
directory guard, then stdout and stderr wired to the MultiWriter. The
source never assigns cmd.Env here, so the field stays none. -/
def loggedExecuteInDirCmd (dir program : String) (args : List String) : Cmd :=
  let c := withDir (execCommand program args) dir
  { c with dest := OutDest.multi }

/-- The command ExecuteAsyncInDir configures before starting: only the
working directory guard. Neither cmd.Env nor the output fields are set. -/
def executeAsyncInDirCmd (dir program : String) (args : List String) : Cmd :=
  withDir (execCommand program args) dir

/-- Outcome of the operating system starting and running one configured
command: whether Start failed (with the OS error text), the sequence of
write calls the process made to its combined output in emission order, and
whether Wait reported a failure (nonzero exit or signal). -/
structure OsOutcome where
  startErr : Option String
  emitted : List String
  exitErr : Option String
deriving DecidableEq

/-- The operating system, abstracted as a map from a configured command to
its outcome. -/
def Os : Type := Cmd → OsOutcome

/-- An operating system whose outcome is the same for every command; used
to instantiate theorems at concrete scenarios. -/
def constOs (oc : OsOutcome) : Os := fun _ => oc

/-- Concatenation of the write calls of a process: the final contents of a
destination that received every write. -/
def joinChunks : List String → String
  | [] => ""
  | c :: cs => c ++ joinChunks cs

/-- One write call through the io.MultiWriter over buffer and writer: the
chunk is appended to the buffer and to the sink in the same call. -/
def multiWrite (st : String × String) (chunk : String) : String × String :=
  (st.1 ++ chunk, st.2 ++ chunk)

/-- All write calls of a process routed through the MultiWriter in
emission order; first component the buffer, second the external sink. -/
def runMulti (chunks : List String) : String × String :=
  chunks.foldl multiWrite ("", "")

/-- Result handling of ExecuteInDir after the command is configured: a
Start failure returns the empty buffer and the wrapped OS error; a Wait
failure returns the full buffer and an error that embeds the captured
output; success returns the full buffer and no error. -/
def finishBuffer (oc : OsOutcome) : String × Option String :=
  match oc.startErr with
  | some e => ("", some ("could not start process: " ++ e))
  | none =>
    match oc.exitErr with
    | some e =>
      (joinChunks oc.emitted,
        some ("process error: " ++ e ++ "\noutput: " ++ joinChunks oc.emitted))
    | none => (joinChunks oc.emitted, none)

/-- ExecuteInDir: configure the command, run it, handle the result. The
parameters osEnv and goEnviron model os.Environ and the package level
GoEnviron variable. -/
def executeInDir (os : Os) (osEnv goEnviron : List String) (dir command : String)
    (arguments : List String) : String × Option String :=
  finishBuffer (os (executeInDirCmd dir command arguments osEnv goEnviron))

/-- Execute delegates to ExecuteInDir with an empty directory. -/
def execute (os : Os) (osEnv goEnviron : List String) (command : String)
    (arguments : List String) : String × Option String :=
  executeInDir os osEnv goEnviron "" command arguments

/-- Return value of LoggedExecuteInDir together with the bytes the caller
supplied sink received, so tee behaviour is observable in theorems. -/
structure LoggedResult where
  out : String
  sink : String
  err : Option String
deriving DecidableEq

/-- Result handling of LoggedExecuteInDir: like finishBuffer except the
output flows through the MultiWriter and a Wait failure does not embed the
captured output in the error text. -/
def finishLogged (oc : OsOutcome) : LoggedResult :=
  match oc.startErr with
  | some e => ⟨"", "", some ("could not start process: " ++ e)⟩
  | none =>
    match oc.exitErr with
    | some e => ⟨(runMulti oc.emitted).1, (runMulti oc.emitted).2,
        some ("process error: " ++ e)⟩
    | none => ⟨(runMulti oc.emitted).1, (runMulti oc.emitted).2, none⟩

/-- LoggedExecuteInDir: configure the command with the MultiWriter, run
it, handle the result. The source never touches GoEnviron here. -/
def loggedExecuteInDir (os : Os) (dir command : String)
    (arguments : List String) : LoggedResult :=
  finishLogged (os (loggedExecuteInDirCmd dir command arguments))

/-- Result handling of ExecuteAsyncInDir: the handle is returned in every
case; only a Start failure carries an error. Nothing after Start is
consulted. -/
def finishAsync (c : Cmd) (oc : OsOutcome) : Cmd × Option String :=
  match oc.startErr with
  | some e => (c, some ("process error: " ++ e))
  | none => (c, none)

/-- ExecuteAsyncInDir: configure the command, start it, return without
waiting. -/
def executeAsyncInDir (os : Os) (dir command : String)
    (arguments : List String) : Cmd × Option String :=
  finishAsync (executeAsyncInDirCmd dir command arguments)
    (os (executeAsyncInDirCmd dir command arguments))

/-- ExecuteAsync delegates to ExecuteAsyncInDir with an empty directory. -/
def executeAsync (os : Os) (command : String)
    (arguments : List String) : Cmd × Option String :=
  executeAsyncInDir os "" command arguments

/-- Model of strings.Split with a single space separator, at character
level: split around every space, keep empty tokens, one empty token for
the empty input. -/
def splitSp : List Char → List (List Char)
  | [] => [[]]
  | c :: cs =>
    if c = ' ' then [] :: splitSp cs
    else
      match splitSp cs with
      | [] => [[c]]
      | t :: ts => (c :: t) :: ts

/-- The tokenizer of ExecuteString: strings.Split of the command on a
single space. -/
def tokenize (s : String) : List String :=
  (splitSp s.data).map String.mk

/-- The final wrap of ExecuteString: when the delegate failed, the error
text embeds the captured output. -/
def wrapStringErr : String × Option String → String × Option String
  | (out, some e) => (out, some ("error: " ++ e ++ ", output: " ++ out))
  | (out, none) => (out, none)

/-- ExecuteString: tokenize, dispatch on the token count, delegate to
Execute, wrap a failure. The zero token branch returns its error without
the wrap, exactly as the early return in the source. -/
def executeString (os : Os) (osEnv goEnviron : List String)
    (command : String) : String × Option String :=
  if (tokenize command).length = 1 then
    wrapStringErr (execute os osEnv goEnviron ((tokenize command).headD "") [])
  else if (tokenize command).length > 1 then
    wrapStringErr (execute os osEnv goEnviron ((tokenize command).headD "") (tokenize command).tail)
  else
    ("", some ("invalid command to run \x27" ++ command ++ "\x27"))

/-- The program name ExecuteString hands to Execute: the first token. -/
def programOf (command : String) : String :=
  (tokenize command).headD ""

/-- The argument list ExecuteString hands to Execute: every token after
the first. -/
def argsOf (command : String) : List String :=
  (tokenize command).tail

/-- Key of one KEY=VALUE environment entry: the part before the first
equals sign. -/
def envKey (entry : String) : String :=
  String.mk (entry.data.takeWhile (fun c => c != '='))

/-- Value of one KEY=VALUE environment entry: the part after the first
equals sign. -/
def envValue (entry : String) : String :=
  String.mk ((entry.data.dropWhile (fun c => c != '=')).drop 1)

/-- Getenv style lookup over an ordered KEY=VALUE list: the last entry
with the key wins. -/
def lookupEnv (env : List String) (key : String) : Option String :=
  env.foldl (fun acc entry => if envKey entry = key then some (envValue entry) else acc) none

/-- Join a token list with single spaces between tokens; the inverse
direction of splitSp, used to state that the split neither collapses
separators nor trims nor filters. -/
def joinSp : List (List Char) → List Char
  | [] => []
  | t :: ts =>
    match ts with
    | [] => t
    | _ :: _ => t ++ ' ' :: joinSp ts

theorem splitSp_ne_nil (l : List Char) : splitSp l ≠ [] := by
  cases l with
  | nil => simp [splitSp]
  | cons c cs =>
    simp only [splitSp]
    split
    · simp
    · cases h : splitSp cs <;> simp

theorem joinSp_splitSp (l : List Char) : joinSp (splitSp l) = l := by
  induction l with
  | nil => rfl
  | cons c cs ih =>
    by_cases hc : c = ' '
    · subst hc
      have h1 : splitSp (' ' :: cs) = [] :: splitSp cs := by simp [splitSp]
      rw [h1]
      cases h : splitSp cs with
      | nil => exact absurd h (splitSp_ne_nil cs)
      | cons t ts =>
        show joinSp ([] :: t :: ts) = ' ' :: cs
        rw [show joinSp ([] :: t :: ts) = [] ++ ' ' :: joinSp (t :: ts) from rfl]
        rw [List.nil_append, ← h, ih]
    · have h1 : splitSp (c :: cs)
          = match splitSp cs with
            | [] => [[c]]
            | t :: ts => (c :: t) :: ts := by
        simp [splitSp, hc]
      cases h : splitSp cs with
      | nil => exact absurd h (splitSp_ne_nil cs)
      | cons t ts =>
        rw [h] at h1
        rw [h1]
        rw [h] at ih
        cases ts with
        | nil =>
          rw [show joinSp [c :: t] = c :: t from rfl]
          rw [show joinSp [t] = t from rfl] at ih
          rw [ih]
        | cons t2 ts2 =>
          rw [show joinSp ((c :: t) :: t2 :: ts2)
              = (c :: t) ++ ' ' :: joinSp (t2 :: ts2) from rfl]
          rw [show joinSp (t :: t2 :: ts2)
              = t ++ ' ' :: joinSp (t2 :: ts2) from rfl] at ih
          rw [List.cons_append, ih]

theorem tokenize_length_pos (command : String) : 1 ≤ (tokenize command).length := by
  unfold tokenize
  cases h : splitSp command.data with
  | nil => exact absurd h (splitSp_ne_nil command.data)
  | cons t ts => simp [h]

theorem foldl_multiWrite (chunks : List String) (b s : String) :
    chunks.foldl multiWrite (b, s) = (b ++ joinChunks chunks, s ++ joinChunks chunks) := by
  induction chunks generalizing b s with
  | nil => simp [joinChunks, String.append_empty]
  | cons c cs ih =>
    rw [List.foldl_cons]
    rw [show multiWrite (b, s) c = (b ++ c, s ++ c) from rfl]
    rw [ih, show joinChunks (c :: cs) = c ++ joinChunks cs from rfl]
    rw [String.append_assoc, String.append_assoc]

theorem runMulti_join (chunks : List String) :
    runMulti chunks = (joinChunks chunks, joinChunks chunks) := by
  unfold runMulti
  rw [foldl_multiWrite, String.empty_append]

theorem lookupEnv_foldl (key : String) (l : List String) (init : Option String) :
    l.foldl (fun acc entry => if envKey entry = key then some (envValue entry) else acc) init
      = (lookupEnv l key).elim init some := by
  induction l generalizing init with
  | nil => simp [lookupEnv]
  | cons e l ih =>
    have hlk : lookupEnv (e :: l) key
        = l.foldl (fun acc entry => if envKey entry = key then some (envValue entry) else acc)
            (if envKey e = key then some (envValue e) else none) := by
      simp [lookupEnv]
    rw [List.foldl_cons, hlk]
    by_cases he : envKey e = key
    · rw [if_pos he, if_pos he, ih (some (envValue e))]
      cases lookupEnv l key <;> simp
    · rw [if_neg he, if_neg he, ih init]
      rfl

theorem lookupEnv_append (osEnv goEnv : List String) (key v : String)
    (h : lookupEnv goEnv key = some v) :
    lookupEnv (osEnv ++ goEnv) key = some v := by
  unfold lookupEnv
  rw [List.foldl_append]
  rw [lookupEnv_foldl key goEnv]
  rw [h]
  rfl

theorem executeString_delegate (os : Os) (osEnv goEnviron : List String) (command : String) :
    executeString os osEnv goEnviron command
      = wrapStringErr (execute os osEnv goEnviron (programOf command) (argsOf command)) := by
  unfold executeString programOf argsOf
  cases h : tokenize command with
  | nil =>
    have := tokenize_length_pos command
    rw [h] at this
    simp at this
  | cons p rest =>
    cases rest with
    | nil => simp
    | cons q rest2 => simp

theorem withDir_env (c : Cmd) (dir : String) : (withDir c dir).env = c.env := by
  unfold withDir
  split <;> rfl

theorem withDir_dest (c : Cmd) (dir : String) : (withDir c dir).dest = c.dest := by
  unfold withDir
  split <;> rfl

theorem effectiveEnv_executeInDirCmd (osEnv goEnviron : List String)
    (dir program : String) (args : List String) :
    effectiveEnv osEnv (executeInDirCmd dir program args osEnv goEnviron)
      = osEnv ++ goEnviron := rfl

theorem loggedCmd_env (dir program : String) (args : List String) :
    (loggedExecuteInDirCmd dir program args).env = none := by
  unfold loggedExecuteInDirCmd
  show (withDir (execCommand program args) dir).env = none
  rw [withDir_env]
  rfl

theorem effectiveEnv_logged (osEnv : List String) (dir program : String) (args : List String) :
    effectiveEnv osEnv (loggedExecuteInDirCmd dir program args) = osEnv := by
  unfold effectiveEnv
  rw [loggedCmd_env]
  rfl

theorem asyncCmd_dest (dir program : String) (args : List String) :
    (executeAsyncInDirCmd dir program args).dest = OutDest.discard := by
  unfold executeAsyncInDirCmd
  rw [withDir_dest]
  rfl

theorem asyncCmd_env (dir program : String) (args : List String) :
    (executeAsyncInDirCmd dir program args).env = none := by
  unfold executeAsyncInDirCmd
  rw [withDir_env]
  rfl

theorem finishAsync_congr (c : Cmd) (oc1 oc2 : OsOutcome)
    (h : oc1.startErr = oc2.startErr) :
    finishAsync c oc1 = finishAsync c oc2 := by
  unfold finishAsync
  rw [h]

theorem wrapStringErr_fst (r : String × Option String) : (wrapStringErr r).1 = r.1 := by
  obtain ⟨out, err⟩ := r
  cases err <;> rfl

theorem wrapStringErr_of_ok (r : String × Option String) (h : r.2 = none) :
    wrapStringErr r = r := by
  obtain ⟨out, err⟩ := r
  simp at h
  rw [h]
  rfl

/-- C1 counterexample: with inherited environment [A=1] and overlay [B=2],
LoggedExecuteInDir leaves the environment field unset, so its effective
environment is [A=1] alone while ExecuteInDir runs with [A=1, B=2]; the
overlay entry B is not visible through the logged entry point. -/
theorem C1_counterexample :
    effectiveEnv ["A=1"] (loggedExecuteInDirCmd "" "prog" []) = ["A=1"] ∧
    effectiveEnv ["A=1"] (executeInDirCmd "" "prog" [] ["A=1"] ["B=2"]) = ["A=1", "B=2"] ∧
    effectiveEnv ["A=1"] (loggedExecuteInDirCmd "" "prog" [])
      ≠ effectiveEnv ["A=1"] (executeInDirCmd "" "prog" [] ["A=1"] ["B=2"]) ∧
    lookupEnv (effectiveEnv ["A=1"] (loggedExecuteInDirCmd "" "prog" [])) "B" = none := by
  decide

/-- C1 amended: LoggedExecuteInDir never assigns the environment of the
command it builds, so the launched process inherits only the OS
environment; the process wide overlay is not appended, and the effective
environment agrees with the one ExecuteInDir builds exactly when the
overlay is empty. -/
theorem C1_amended_env (osEnv goEnviron : List String) (dir command : String)
    (arguments : List String) :
    effectiveEnv osEnv (loggedExecuteInDirCmd dir command arguments) = osEnv ∧
    (effectiveEnv osEnv (loggedExecuteInDirCmd dir command arguments)
        = effectiveEnv osEnv (executeInDirCmd dir command arguments osEnv goEnviron)
      ↔ goEnviron = []) := by
  constructor
  · exact effectiveEnv_logged osEnv dir command arguments
  · rw [effectiveEnv_logged, effectiveEnv_executeInDirCmd]
    exact List.self_eq_append_right

/-- C2 counterexample: the async entry points do not attach the buffer
capture the blocking operations attach; the configured output destination
of ExecuteAsyncInDir is discard, not the in-memory buffer ExecuteInDir
wires. -/
theorem C2_counterexample :
    (executeAsyncInDirCmd "" "prog" []).dest = OutDest.discard ∧
    (executeInDirCmd "" "prog" [] [] []).dest = OutDest.buffer ∧
    (executeAsyncInDirCmd "" "prog" []).dest ≠ (executeInDirCmd "" "prog" [] [] []).dest := by
  decide

/-- C2 amended: ExecuteAsyncInDir attaches no output capture at all (the
output destination stays discard), returns the configured command as its
handle, and its result depends only on the Start outcome, never on the
process output or exit status, so it returns immediately after a
successful start without waiting for exit. -/
theorem C2_amended_async (os1 os2 : Os) (dir command : String) (arguments : List String)
    (h : (os1 (executeAsyncInDirCmd dir command arguments)).startErr
        = (os2 (executeAsyncInDirCmd dir command arguments)).startErr) :
    (executeAsyncInDirCmd dir command arguments).dest = OutDest.discard ∧
    (executeAsyncInDir os1 dir command arguments).1 = executeAsyncInDirCmd dir command arguments ∧
    executeAsyncInDir os1 dir command arguments = executeAsyncInDir os2 dir command arguments := by
  refine ⟨asyncCmd_dest dir command arguments, ?_, ?_⟩
  · show (finishAsync (executeAsyncInDirCmd dir command arguments)
        (os1 (executeAsyncInDirCmd dir command arguments))).1
      = executeAsyncInDirCmd dir command arguments
    unfold finishAsync
    cases (os1 (executeAsyncInDirCmd dir command arguments)).startErr <;> rfl
  · exact finishAsync_congr _ _ _ h

/-- C2 witness: two systems that agree that the start succeeds but differ
in output and exit status give the same async result. -/
theorem C2_witness :
    (constOs ⟨none, ["a"], none⟩ (executeAsyncInDirCmd "" "sleep" ["100"])).startErr
      = (constOs ⟨none, ["b"], some "killed"⟩ (executeAsyncInDirCmd "" "sleep" ["100"])).startErr ∧
    ((executeAsyncInDirCmd "" "sleep" ["100"]).dest = OutDest.discard ∧
     (executeAsyncInDir (constOs ⟨none, ["a"], none⟩) "" "sleep" ["100"]).1
        = executeAsyncInDirCmd "" "sleep" ["100"] ∧
     executeAsyncInDir (constOs ⟨none, ["a"], none⟩) "" "sleep" ["100"]
        = executeAsyncInDir (constOs ⟨none, ["b"], some "killed"⟩) "" "sleep" ["100"]) :=
  ⟨rfl, C2_amended_async (constOs ⟨none, ["a"], none⟩)
    (constOs ⟨none, ["b"], some "killed"⟩) "" "sleep" ["100"] rfl⟩

/-- C3: evaluation at the failing input: the empty command tokenizes to
one empty token (and a space only command to empty tokens, never to
zero tokens), so ExecuteString calls Execute with the empty program name
instead of returning the invalid command error; the start refusal of the
OS comes back wrapped, and the invalid command error is never produced. -/
theorem C3_code_bug_eval :
    tokenize "" = [""] ∧
    tokenize " " = ["", ""] ∧
    executeString (constOs ⟨some "exec: no command", [], none⟩) [] [] ""
      = ("", some "error: could not start process: exec: no command, output: ") ∧
    executeString (constOs ⟨some "exec: no command", [], none⟩) [] [] ""
      ≠ ("", some "invalid command to run \x27\x27") := by
  decide

/-- C4 counterexample: when the delegate fails, ExecuteString does not
return the same result as Execute on the tokens: for the command built
from tokens prog and a under a system where the process exits nonzero,
ExecuteString wraps the error of Execute once more and embeds the output,
so the two results differ. -/
theorem C4_counterexample :
    execute (constOs ⟨none, ["out"], some "exit status 1"⟩) [] [] "prog" ["a"]
      = ("out", some "process error: exit status 1\noutput: out") ∧
    executeString (constOs ⟨none, ["out"], some "exit status 1"⟩) [] [] "prog a"
      = ("out", some "error: process error: exit status 1\noutput: out, output: out") ∧
    executeString (constOs ⟨none, ["out"], some "exit status 1"⟩) [] [] "prog a"
      ≠ execute (constOs ⟨none, ["out"], some "exit status 1"⟩) [] [] "prog" ["a"] := by
  decide

/-- C4 amended: ExecuteString always delegates to Execute on the first
token and the remaining tokens, returns the same output, and when Execute
succeeds it returns the identical result; when Execute fails it returns
the same output but an error that wraps the error of Execute and embeds
the output. -/
theorem C4_amended_delegate (os : Os) (osEnv goEnviron : List String) (command : String) :
    executeString os osEnv goEnviron command
      = wrapStringErr (execute os osEnv goEnviron (programOf command) (argsOf command)) ∧
    (executeString os osEnv goEnviron command).1
      = (execute os osEnv goEnviron (programOf command) (argsOf command)).1 ∧
    ((execute os osEnv goEnviron (programOf command) (argsOf command)).2 = none →
      executeString os osEnv goEnviron command
        = execute os osEnv goEnviron (programOf command) (argsOf command)) := by
  refine ⟨executeString_delegate os osEnv goEnviron command, ?_, ?_⟩
  · rw [executeString_delegate os osEnv goEnviron command, wrapStringErr_fst]
  · intro h
    rw [executeString_delegate os osEnv goEnviron command, wrapStringErr_of_ok _ h]

/-- C4 witness: on a system where the process succeeds emitting hi, the
command echo hi through ExecuteString equals Execute on echo with hi. -/
theorem C4_witness :
    (execute (constOs ⟨none, ["hi\n"], none⟩) [] [] (programOf "echo hi") (argsOf "echo hi")).2
      = none ∧
    executeString (constOs ⟨none, ["hi\n"], none⟩) [] [] "echo hi"
      = execute (constOs ⟨none, ["hi\n"], none⟩) [] [] (programOf "echo hi") (argsOf "echo hi") :=
  ⟨by decide, (C4_amended_delegate (constOs ⟨none, ["hi\n"], none⟩) [] [] "echo hi").2.2 (by decide)⟩

/-- C5: for every blocking invocation, the effective environment is
exactly the inherited OS environment followed by the overlay entries in
stored order, and a key defined by the overlay resolves to the overlay
value under last-applied-wins lookup; the dir parameter covers both
Execute (empty dir) and ExecuteInDir. -/
theorem C5_env (osEnv goEnviron : List String) (dir command : String)
    (arguments : List String) (key v : String)
    (h : lookupEnv goEnviron key = some v) :
    effectiveEnv osEnv (executeInDirCmd dir command arguments osEnv goEnviron)
      = osEnv ++ goEnviron ∧
    lookupEnv (effectiveEnv osEnv (executeInDirCmd dir command arguments osEnv goEnviron)) key
      = some v := by
  refine ⟨effectiveEnv_executeInDirCmd osEnv goEnviron dir command arguments, ?_⟩
  rw [effectiveEnv_executeInDirCmd]
  exact lookupEnv_append osEnv goEnviron key v h

/-- C5 witness: the key A defined as 1 by the inherited environment and as
2 by the overlay resolves to 2 in the effective environment. -/
theorem C5_witness :
    lookupEnv ["A=2"] "A" = some "2" ∧
    lookupEnv ["A=1"] "A" = some "1" ∧
    (effectiveEnv ["A=1"] (executeInDirCmd "/tmp" "prog" ["x"] ["A=1"] ["A=2"])
        = ["A=1"] ++ ["A=2"] ∧
     lookupEnv (effectiveEnv ["A=1"] (executeInDirCmd "/tmp" "prog" ["x"] ["A=1"] ["A=2"])) "A"
        = some "2") :=
  ⟨by decide, by decide, C5_env ["A=1"] ["A=2"] "/tmp" "prog" ["x"] "A" "2" (by decide)⟩

/-- C6: when the process starts and then exits with a failure,
ExecuteInDir returns the full captured output together with an error that
wraps the OS error and embeds the captured output in its text, while
LoggedExecuteInDir returns the same full capture with an error that wraps
the OS error without embedding the output. -/
theorem C6_failure (os : Os) (osEnv goEnviron : List String) (dir command : String)
    (arguments : List String) (e1 e2 : String)
    (h1 : (os (executeInDirCmd dir command arguments osEnv goEnviron)).startErr = none)
    (h2 : (os (executeInDirCmd dir command arguments osEnv goEnviron)).exitErr = some e1)
    (h3 : (os (loggedExecuteInDirCmd dir command arguments)).startErr = none)
    (h4 : (os (loggedExecuteInDirCmd dir command arguments)).exitErr = some e2) :
    executeInDir os osEnv goEnviron dir command arguments
      = (joinChunks (os (executeInDirCmd dir command arguments osEnv goEnviron)).emitted,
         some ("process error: " ++ e1 ++ "\noutput: "
           ++ joinChunks (os (executeInDirCmd dir command arguments osEnv goEnviron)).emitted)) ∧
    loggedExecuteInDir os dir command arguments
      = ⟨joinChunks (os (loggedExecuteInDirCmd dir command arguments)).emitted,
         joinChunks (os (loggedExecuteInDirCmd dir command arguments)).emitted,
         some ("process error: " ++ e2)⟩ := by
  constructor
  · unfold executeInDir finishBuffer
    rw [h1, h2]
  · unfold loggedExecuteInDir finishLogged
    rw [h3, h4, runMulti_join]

/-- C6 witness: a process that emits out and exits with status 2. -/
theorem C6_witness :
    (constOs ⟨none, ["out"], some "exit status 2"⟩
        (executeInDirCmd "" "prog" [] [] [])).exitErr = some "exit status 2" ∧
    (executeInDir (constOs ⟨none, ["out"], some "exit status 2"⟩) [] [] "" "prog" []
       = (joinChunks (constOs ⟨none, ["out"], some "exit status 2"⟩
            (executeInDirCmd "" "prog" [] [] [])).emitted,
          some ("process error: " ++ "exit status 2" ++ "\noutput: "
            ++ joinChunks (constOs ⟨none, ["out"], some "exit status 2"⟩
                 (executeInDirCmd "" "prog" [] [] [])).emitted)) ∧
     loggedExecuteInDir (constOs ⟨none, ["out"], some "exit status 2"⟩) "" "prog" []
       = ⟨joinChunks (constOs ⟨none, ["out"], some "exit status 2"⟩
            (loggedExecuteInDirCmd "" "prog" [])).emitted,
          joinChunks (constOs ⟨none, ["out"], some "exit status 2"⟩
            (loggedExecuteInDirCmd "" "prog" [])).emitted,
          some ("process error: " ++ "exit status 2")⟩) :=
  ⟨rfl, C6_failure (constOs ⟨none, ["out"], some "exit status 2"⟩) [] [] "" "prog" []
    "exit status 2" "exit status 2" rfl rfl rfl rfl⟩

/-- C7: when the start fails, ExecuteInDir and LoggedExecuteInDir return
the empty buffer contents captured so far, never success, with an error
that wraps the OS error in the start failure text. -/
theorem C7_startFailure (os : Os) (osEnv goEnviron : List String) (dir command : String)
    (arguments : List String) (e1 e2 : String)
    (h1 : (os (executeInDirCmd dir command arguments osEnv goEnviron)).startErr = some e1)
    (h2 : (os (loggedExecuteInDirCmd dir command arguments)).startErr = some e2) :
    executeInDir os osEnv goEnviron dir command arguments
      = ("", some ("could not start process: " ++ e1)) ∧
    loggedExecuteInDir os dir command arguments
      = ⟨"", "", some ("could not start process: " ++ e2)⟩ := by
  constructor
  · unfold executeInDir finishBuffer
    rw [h1]
  · unfold loggedExecuteInDir finishLogged
    rw [h2]

/-- C7 witness: a missing binary is refused at start. -/
theorem C7_witness :
    (constOs ⟨some "executable file not found", [], none⟩
        (executeInDirCmd "" "nosuch" [] [] [])).startErr = some "executable file not found" ∧
    (executeInDir (constOs ⟨some "executable file not found", [], none⟩) [] [] "" "nosuch" []
       = ("", some ("could not start process: " ++ "executable file not found")) ∧
     loggedExecuteInDir (constOs ⟨some "executable file not found", [], none⟩) "" "nosuch" []
       = ⟨"", "", some ("could not start process: " ++ "executable file not found")⟩) :=
  ⟨rfl, C7_startFailure (constOs ⟨some "executable file not found", [], none⟩) [] []
    "" "nosuch" [] "executable file not found" "executable file not found" rfl rfl⟩

/-- C8: every write through the MultiWriter reaches the buffer and the
sink in the same call and in emission order, so whenever the process
started, the bytes the sink received equal the returned buffer output byte
for byte, and both equal the concatenation of everything the process
emitted. -/
theorem C8_tee (os : Os) (dir command : String) (arguments : List String)
    (h : (os (loggedExecuteInDirCmd dir command arguments)).startErr = none) :
    (∀ chunks : List String, runMulti chunks = (joinChunks chunks, joinChunks chunks)) ∧
    (loggedExecuteInDir os dir command arguments).sink
      = (loggedExecuteInDir os dir command arguments).out ∧
    (loggedExecuteInDir os dir command arguments).out
      = joinChunks (os (loggedExecuteInDirCmd dir command arguments)).emitted := by
  refine ⟨runMulti_join, ?_, ?_⟩ <;>
  · unfold loggedExecuteInDir finishLogged
    rw [h]
    cases hx : (os (loggedExecuteInDirCmd dir command arguments)).exitErr <;>
      simp [runMulti_join]

/-- C8 witness: a process that writes a then b and exits cleanly. -/
theorem C8_witness :
    (constOs ⟨none, ["a", "b"], none⟩ (loggedExecuteInDirCmd "/tmp" "prog" [])).startErr = none ∧
    ((loggedExecuteInDir (constOs ⟨none, ["a", "b"], none⟩) "/tmp" "prog" []).sink
       = (loggedExecuteInDir (constOs ⟨none, ["a", "b"], none⟩) "/tmp" "prog" []).out ∧
     (loggedExecuteInDir (constOs ⟨none, ["a", "b"], none⟩) "/tmp" "prog" []).out
       = joinChunks (constOs ⟨none, ["a", "b"], none⟩
           (loggedExecuteInDirCmd "/tmp" "prog" [])).emitted) :=
  ⟨rfl, (C8_tee (constOs ⟨none, ["a", "b"], none⟩) "/tmp" "prog" [] rfl).2⟩

/-- C9 counterexample: for the command with a leading space, the empty
token is the first token, so it becomes the program name handed to
Execute and is not among the arguments; the claim that every empty token
is passed as an argument fails here. -/
theorem C9_counterexample :
    tokenize " echo" = ["", "echo"] ∧
    programOf " echo" = "" ∧
    argsOf " echo" = ["echo"] ∧
    "" ∉ argsOf " echo" ∧
    executeString (constOs ⟨none, [], none⟩) [] [] " echo"
      = wrapStringErr (execute (constOs ⟨none, [], none⟩) [] [] "" ["echo"]) := by
  decide

/-- C9 amended: the tokenizer is a literal single space split: joining the
tokens with single spaces reconstructs the input exactly, so nothing is
collapsed, trimmed or filtered; the first token, empty or not, becomes the
program name and every later token, empty or not, is passed among the
arguments, for every invocation of ExecuteString. -/
theorem C9_amended_literalSplit (command : String) :
    joinSp (splitSp command.data) = command.data ∧
    programOf command = (tokenize command).headD "" ∧
    argsOf command = (tokenize command).tail ∧
    (∀ os : Os, ∀ osEnv goEnviron : List String,
      executeString os osEnv goEnviron command
        = wrapStringErr (execute os osEnv goEnviron (programOf command) (argsOf command))) := by
  refine ⟨joinSp_splitSp command.data, rfl, rfl, ?_⟩
  intro os osEnv goEnviron
  exact executeString_delegate os osEnv goEnviron command

/-- C10: the split of every input, the empty string included, yields at
least one token, so the zero token branch of ExecuteString is unreachable
and every call proceeds to attempt execution through Execute. -/
theorem C10_noZeroTokens (os : Os) (osEnv goEnviron : List String) (command : String) :
    1 ≤ (tokenize command).length ∧
    executeString os osEnv goEnviron command
      = wrapStringErr (execute os osEnv goEnviron (programOf command) (argsOf command)) :=
  ⟨tokenize_length_pos command, executeString_delegate os osEnv goEnviron command⟩

end Process
